import Mathlib

/-!
Shallow embedding of the FAQ-matching and response-generation core of the
AI-Support-Backend repository (package `contactsupport`): the FAQ table and
keyword matcher of `utils/faq_knowledge_base.py`, the response generator of
`utils/ai_agent.py` with its provider fallback, and the validators of
`utils/validators.py` together with the create path of
`controllers/support_message_controller.py`.

Modelling conventions: Python strings are sequences of code points, modelled
as `String` / `List Char` over the fragment the program manipulates (the
string helpers below model the ASCII behaviour of `str.lower`, `str.strip`,
`str.islower`, and the `re` word/character classes, which agrees with Python
on every string stored in the program and on ASCII input).  The similarity
score, a Python float built from small integer divisions and the constant
0.3, is modelled exactly with `ℚ`.  The external completion provider and the
process environment are modelled by an explicit `ProviderEnv` value: each of
its fields corresponds to one failure or success mode of the provider code
path, so quantifying over `ProviderEnv` quantifies over provider behaviours.
-/

/-- ASCII word characters: the model of the regex class `\w` used by
`re.findall(r'\b\w+\b', ...)` in `find_matching_faq`. -/
def isWordChar (c : Char) : Bool := c.isAlphanum || c == '_'

/-- The ASCII whitespace characters removed by Python's `str.strip()`. -/
def isPySpace (c : Char) : Bool :=
  c == ' ' || c == '\t' || c == '\n' || c == '\r' || c == '\x0b' || c == '\x0c'

/-- Python `str.lower()` on one character (ASCII range). -/
def pyToLower (c : Char) : Char :=
  if c.isUpper then Char.ofNat (c.toNat + 32) else c

/-- Python `str.lower()` on a string, as a list of characters. -/
def pyLower (cs : List Char) : List Char := cs.map pyToLower

/-- Python `str.upper()` on one character (ASCII range). -/
def pyToUpper (c : Char) : Char :=
  if c.isLower then Char.ofNat (c.toNat - 32) else c

/-- Python `str.strip()`: drop leading and trailing whitespace. -/
def pyStrip (cs : List Char) : List Char :=
  ((cs.dropWhile isPySpace).reverse.dropWhile isPySpace).reverse

/-- Python `str.strip(ch)` for a single character argument: drop every
leading and trailing occurrence of that character. -/
def pyStripChar (ch : Char) (cs : List Char) : List Char :=
  ((cs.dropWhile (· == ch)).reverse.dropWhile (· == ch)).reverse

/-- Emit the pending (reversed) token in front of `acc`, if it is nonempty. -/
def flushTok (cur : List Char) (acc : List String) : List String :=
  if cur = [] then acc else String.mk cur.reverse :: acc

/-- Worker for `wordTokens`: `cur` holds the characters of the word currently
being read, in reverse order. -/
def tokenizeAux : List Char → List Char → List String
  | [], cur => flushTok cur []
  | c :: rest, cur =>
    if isWordChar c then tokenizeAux rest (c :: cur)
    else flushTok cur (tokenizeAux rest [])

/-- `re.findall(r'\b\w+\b', s)`: the maximal runs of word characters of `s`,
in order.  On `\w`-runs the `\b` anchors of the source regex are exactly the
boundaries of maximal runs, so the list of matches is the list of maximal
word-character runs. -/
def wordTokens (cs : List Char) : List String := tokenizeAux cs []

/-- `set(re.findall(r'\b\w+\b', s))`: the set of word tokens of a string. -/
def keywordsOf (cs : List Char) : Finset String := (wordTokens cs).toFinset

/-- One FAQ entry: a question/answer pair (`faq_knowledge_base.FAQ_DATABASE`
rows). -/
structure FAQ where
  question : String
  answer : String
deriving DecidableEq

/-- The FAQ knowledge base, exactly as in `faq_knowledge_base.py`. -/
def FAQ_DATABASE : List FAQ :=
  [⟨"How can I reset my password?",
    "Go to the login page and click 'Forgot Password'. You'll receive a reset email."⟩,
   ⟨"What is your refund policy?",
    "We offer full refunds within 7 days of purchase if the product is defective."⟩,
   ⟨"Do you offer 24/7 customer support?",
    "Yes, our AI and human agents are available 24/7 to assist you."⟩,
   ⟨"How can I contact customer support?",
    "You can contact our support team via the 'Contact Us' page or by emailing support@example.com."⟩,
   ⟨"Can I change my registered email address?",
    "Yes, go to your account settings and update your email address, then verify the new one."⟩,
   ⟨"How do I delete my account?",
    "To delete your account, go to Settings > Privacy > Delete Account. You'll receive a confirmation email."⟩,
   ⟨"What payment methods do you accept?",
    "We accept credit/debit cards, PayPal, and Stripe payments."⟩,
   ⟨"Can I upgrade or downgrade my plan?",
    "Yes, you can change your subscription plan anytime from your account settings."⟩,
   ⟨"Do you have a free trial?",
    "Yes, we offer a 7-day free trial for new users to explore all premium features."⟩,
   ⟨"Is my data secure with your service?",
    "Absolutely. We use advanced encryption and follow strict data privacy standards to keep your data safe."⟩,
   ⟨"Can I access the service from my mobile device?",
    "Yes, our platform is fully responsive and works seamlessly on all mobile devices."⟩,
   ⟨"What should I do if I don't receive the password reset email?",
    "Please check your spam folder first. If you still can't find it, contact support to resend the link."⟩,
   ⟨"How long does it take to process a refund?",
    "Refunds are usually processed within 3–5 business days after approval."⟩,
   ⟨"Can multiple users share one account?",
    "For security reasons, sharing accounts is not recommended. Each user should have their own login."⟩,
   ⟨"How can I update my billing information?",
    "Go to your account's Billing section and click 'Update Payment Details' to make changes."⟩,
   ⟨"Do you send notifications about system updates?",
    "Yes, we notify all users via email and dashboard alerts whenever new updates are released."⟩,
   ⟨"Can I pause my subscription temporarily?",
    "Currently, we don't offer subscription pauses, but you can cancel and reactivate anytime."⟩,
   ⟨"Do you provide training or onboarding support?",
    "Yes, we offer video tutorials and live onboarding sessions for new customers."⟩,
   ⟨"How can I cancel my subscription?",
    "You can cancel your subscription by going to your account settings and clicking 'Cancel Subscription'."⟩,
   ⟨"How can I change my subscription plan?",
    "You can change your subscription plan by going to your account settings and clicking 'Change Subscription Plan'."⟩,
   ⟨"How can I get a refund?",
    "You can request a refund by going to your account settings and clicking 'Request Refund'."⟩,
   ⟨"How can I change my shipping address?",
    "You can change your shipping address by going to your account settings and clicking 'Change Shipping Address'."⟩,
   ⟨"How can I change my billing information?",
    "You can change your billing information by going to your account settings and clicking 'Change Billing Information'."⟩,
   ⟨"Do you offer any warranties on your products?",
    "Yes, we offer a 1-year warranty on all our products."⟩,
   ⟨"What are your operating hours?",
    "We are open from 9:00 AM to 5:00 PM, Monday to Friday."⟩,
   ⟨"How long is your warranty period?",
    "Our warranty period is 1 year from the date of purchase."⟩,
   ⟨"How can I track my order?",
    "You can track your order by going to your account settings and clicking 'Track Order'."⟩,
   ⟨" What payment methods do you accept? ",
    "We accept credit/debit cards, PayPal, and Stripe payments."⟩,
   ⟨"How can I report a technical issue or bug?",
    "You can report any issue using the 'Report a Bug' button in your dashboard or contact support directly."⟩,
   ⟨"Is there a way to export my data?",
    "Yes, you can export your account data from Settings > Data Export anytime."⟩]

/-- The stop-word set removed from the keyword intersection. -/
def stop_words : Finset String :=
  (["i", "my", "me", "you", "your", "the", "a", "an", "is", "are",
    "was", "were", "do", "does", "did", "can", "could", "what",
    "how", "where", "when", "why", "who", "which", "this", "that",
    "to", "for", "of", "in", "on", "at", "by", "with", "from"] :
    List String).toFinset

/-- The key-phrase list used for the +0.3 score boost. -/
def key_phrases : List String :=
  ["reset password", "forgot password", "password reset",
   "refund policy", "refund",
   "24/7", "customer support", "contact support",
   "change email", "update email", "email address",
   "delete account",
   "payment method", "payment",
   "upgrade plan", "downgrade plan", "subscription",
   "free trial",
   "data secure", "data security", "privacy",
   "mobile device", "mobile",
   "password reset email",
   "process refund", "refund time",
   "share account",
   "billing information", "update billing",
   "system updates", "notifications",
   "pause subscription",
   "training", "onboarding",
   "technical issue", "bug", "report bug",
   "export data"]

/-- `s.lower().strip()`, the normal form used on both sides of the exact-match
comparison and on the user question throughout scoring. -/
def normalizeQ (s : String) : List Char := pyStrip (pyLower s.data)

/-- `set(re.findall(r'\b\w+\b', faq["question"].lower()))`: the (unstripped)
lower-cased keyword set of a FAQ question. -/
def faq_keywords (faq : FAQ) : Finset String :=
  keywordsOf (pyLower faq.question.data)

/-- `(faq_keywords ∩ user_keywords) - stop_words`: the stop-word-filtered
keyword intersection the scorer is built on. -/
def common_keywords (uq : List Char) (faq : FAQ) : Finset String :=
  (faq_keywords faq ∩ keywordsOf uq) \ stop_words

/-- The phrase-boost test: some key phrase is a substring (`in`) of both the
lower-cased user question and the lower-cased FAQ question.  The Python loop
adds 0.3 for the first matching phrase and breaks, so the boost is applied
exactly once iff some phrase matches. -/
def phrase_boost (uq : List Char) (faq : FAQ) : Bool :=
  key_phrases.any fun p =>
    decide (p.data <:+: uq) && decide (p.data <:+: pyLower faq.question.data)

/-- The similarity score one candidate receives against the normalized user
question, exactly as computed in the scoring loop of `find_matching_faq`
(with float arithmetic modelled exactly in `ℚ`).  A candidate whose filtered
intersection is empty is skipped by the loop, which is the same as scoring 0
because the running best never falls below 0. -/
def scoreOf (uq : List Char) (faq : FAQ) : ℚ :=
  if 0 < (common_keywords uq faq).card then
    (if phrase_boost uq faq then
      ((common_keywords uq faq).card : ℚ)
          / ((max ((faq_keywords faq) \ stop_words).card 1 : ℕ) : ℚ) + 3/10
    else
      ((common_keywords uq faq).card : ℚ)
          / ((max ((faq_keywords faq) \ stop_words).card 1 : ℕ) : ℚ))
  else 0

/-- One iteration of the best-candidate loop: replace the running best match
exactly when the new score is strictly greater (`score > best_score`). -/
def stepBest (uq : List Char) (acc : Option FAQ × ℚ) (faq : FAQ) :
    Option FAQ × ℚ :=
  if acc.2 < scoreOf uq faq then (some faq, scoreOf uq faq) else acc

/-- The scoring loop: running `(best_match, best_score)` over the whole table,
started at `(None, 0)`. -/
def bestCandidate (uq : List Char) : Option FAQ × ℚ :=
  FAQ_DATABASE.foldl (stepBest uq) (none, 0)

/-- `if best_match and best_score >= 0.3: return best_match; return None`. -/
def thresholdGate : Option FAQ × ℚ → Option FAQ
  | (some faq, s) => if (3 : ℚ)/10 ≤ s then some faq else none
  | (none, _) => none

/-- `find_matching_faq` from `faq_knowledge_base.py`: first a case-insensitive
exact match on `lower().strip()` normal forms (first hit wins), then the
keyword-scoring loop behind the 0.3 threshold gate. -/
def find_matching_faq (user_question : String) : Option FAQ :=
  match FAQ_DATABASE.find?
      (fun faq => normalizeQ faq.question == normalizeQ user_question) with
  | some faq => some faq
  | none => thresholdGate (bestCandidate (normalizeQ user_question))

/-- The fixed fallback sentence of `ai_agent.py` (`MOCK_RESPONSE`). -/
def MOCK_RESPONSE : String :=
  "Thank you for your message. Our support team will reach out shortly."

/-- `get_gemini_api_key`: read `GEMINI_API_KEY` from the environment (modelled
as an optional raw string), strip whitespace and surrounding quote characters,
and map empty results to `None`. -/
def get_gemini_api_key (envVar : Option String) : Option String :=
  match envVar with
  | none => none
  | some k =>
    let k2 := pyStripChar '\'' (pyStripChar '"' (pyStrip k.data))
    if k2 = [] then none else some (String.mk k2)

/-- The process environment and provider behaviour visible to
`generate_ai_response`.  `gemini_api_key` is the raw `GEMINI_API_KEY` value;
`clientFails` models an exception while constructing the client/model/config
(caught in `_get_client_and_model`, which then returns `None`); `agentFails`
models an exception while constructing the agent (caught in `_get_agent`);
`runResult` models `Runner.run`: an exception (`Except.error`), a missing or
falsy `final_output` (`Except.ok none`), or the produced text
(`Except.ok (some s)`). -/
structure ProviderEnv where
  gemini_api_key : Option String
  clientFails : Bool
  agentFails : Bool
  runResult : Except Unit (Option String)

/-- The FAQ-answer personalization step of `generate_ai_response`: when a
truthy (non-empty) customer name is given, upper-case the answer's first
character if it is a lowercase letter and prepend the greeting. -/
def capitalizeFirst (answer : String) : String :=
  match answer.data with
  | [] => answer
  | c :: rest => if c.isLower then String.mk (pyToUpper c :: rest) else answer

/-- `if customer_name: ... answer = f"Hi {...}, {answer}"` — note that the
Python truthiness test skips personalization for an empty name string. -/
def personalize (answer : String) (customer_name : Option String) : String :=
  match customer_name with
  | some name =>
    if name = "" then answer
    else "Hi " ++ name ++ ", " ++ capitalizeFirst answer
  | none => answer

/-- `generate_ai_response` from `ai_agent.py`.  The FAQ-match branch returns
the (possibly personalized) stored answer without consulting the provider.
Otherwise every provider failure mode resolves to `MOCK_RESPONSE`, and a
produced output is returned only when its stripped form is longer than 10
characters.  The surrounding `try/except` makes the Python function total,
which the embedding reflects by being a total function of the provider
behaviour. -/
def generate_ai_response (env : ProviderEnv) (user_message : String)
    (customer_name customer_email context : Option String) : String :=
  match find_matching_faq user_message with
  | some faq => personalize faq.answer customer_name
  | none =>
    match get_gemini_api_key env.gemini_api_key with
    | none => MOCK_RESPONSE
    | some _ =>
      if env.clientFails then MOCK_RESPONSE
      else if env.agentFails then MOCK_RESPONSE
      else
        match env.runResult with
        | Except.error _ => MOCK_RESPONSE
        | Except.ok none => MOCK_RESPONSE
        | Except.ok (some s) =>
          if 10 < (pyStrip s.data).length then String.mk (pyStrip s.data)
          else MOCK_RESPONSE

/-- Character class `[a-zA-Z0-9._%+-]` of the email regex. -/
def isLocalChar (c : Char) : Bool :=
  c.isAlphanum || c == '.' || c == '_' || c == '%' || c == '+' || c == '-'

/-- Character class `[a-zA-Z0-9.-]` of the email regex. -/
def isDomainChar (c : Char) : Bool := c.isAlphanum || c == '.' || c == '-'

/-- `validate_email`: the anchored regex
`^[a-zA-Z0-9._%+-]+@[a-zA-Z0-9.-]+\.[a-zA-Z]{2,}$` under `re.match`.
Python's `$` also matches just before a single trailing newline, so one is
allowed.  The local part must be the segment before the first `@` (the local
class excludes `@`), and because the TLD class `[a-zA-Z]` excludes dots, a
successful match must split the domain at its last dot; the decomposition
below is therefore exactly the set of strings the regex accepts. -/
def validate_email (email : String) : Bool :=
  let cs := match email.data.getLast? with
            | some '\n' => email.data.dropLast
            | _ => email.data
  let localPart := cs.takeWhile (fun c => c != '@')
  match cs.dropWhile (fun c => c != '@') with
  | '@' :: domainTld =>
    (match domainTld.reverse.dropWhile (fun c => c != '.') with
     | '.' :: domRev =>
       decide (localPart ≠ []) && localPart.all isLocalChar &&
       decide (domRev ≠ []) && domRev.all isDomainChar &&
       decide (2 ≤ (domainTld.reverse.takeWhile (fun c => c != '.')).length) &&
       (domainTld.reverse.takeWhile (fun c => c != '.')).all Char.isAlpha
     | _ => false)
  | _ => false

/-- The five `HTTPException(status_code=400, ...)` reasons of
`validate_support_message_data`, in source order. -/
inductive ValidationError where
  | nameEmpty
  | emailEmpty
  | emailInvalid
  | messageEmpty
  | messageTooLong
deriving DecidableEq

/-- `validate_support_message_data` from `validators.py`: `some e` models the
function raising the HTTP 400 exception with reason `e`, `none` models it
returning normally.  `not s or not s.strip()` is `s = "" ∨ strip s = ""`. -/
def validate_support_message_data (name email message : String) :
    Option ValidationError :=
  if name.data = [] ∨ pyStrip name.data = [] then some ValidationError.nameEmpty
  else if email.data = [] ∨ pyStrip email.data = [] then
    some ValidationError.emailEmpty
  else if validate_email email = false then some ValidationError.emailInvalid
  else if message.data = [] ∨ pyStrip message.data = [] then
    some ValidationError.messageEmpty
  else if 10000 < message.data.length then some ValidationError.messageTooLong
  else none

/-- The request body of the create endpoint (`SupportMessageCreate`). -/
structure SupportMessageCreate where
  name : String
  email : String
  message : String
deriving DecidableEq

/-- A persisted support-message record (`SupportMessage`): created with
`ai_response = None`, updated with the generated text in a second write. -/
structure SupportMessage where
  name : String
  email : String
  message : String
  ai_response : Option String
deriving DecidableEq

/-- `SupportMessageController.create_support_message`, with the database
modelled as the list of persisted records.  Validation runs first; on
failure the exception propagates (`Except.error`) and nothing is persisted.
On success the record is inserted, the AI response is generated and attached
in a second write, and the final record is returned. -/
def create_support_message (env : ProviderEnv) (db : List SupportMessage)
    (md : SupportMessageCreate) :
    List SupportMessage × Except ValidationError SupportMessage :=
  match validate_support_message_data md.name md.email md.message with
  | some e => (db, Except.error e)
  | none =>
    let ai := generate_ai_response env md.message (some md.name)
      (some md.email) none
    let sm2 : SupportMessage := ⟨md.name, md.email, md.message, some ai⟩
    (db ++ [sm2], Except.ok sm2)

/-- The scoring rule in the specification's words (§4.1 step 2): skip a
candidate whose stop-word-filtered intersection is empty, otherwise the
fraction of the candidate's meaningful vocabulary the query covers, plus a
flat 0.3 exactly when some listed key phrase is a substring (in the
mathematical sense `List.IsInfix`) of both lower-cased texts. -/
def specScore (uq : List Char) (faq : FAQ) : ℚ :=
  if common_keywords uq faq = ∅ then 0
  else
    ((common_keywords uq faq).card : ℚ)
        / ((max ((faq_keywords faq) \ stop_words).card 1 : ℕ) : ℚ)
      + (if ∃ p ∈ key_phrases,
            p.data <:+: uq ∧ p.data <:+: pyLower faq.question.data
         then 3/10 else 0)

/-- No entry of the table matches the query exactly after `lower().strip()`
normalization. -/
def noExactMatch (q : String) : Prop :=
  ∀ faq ∈ FAQ_DATABASE, normalizeQ faq.question ≠ normalizeQ q

instance (q : String) : Decidable (noExactMatch q) :=
  inferInstanceAs (Decidable (∀ faq ∈ FAQ_DATABASE, _ ≠ _))

/-! ### Supporting lemmas -/

lemma tokenizeAux_eq_nil {cs : List Char} :
    ∀ {cur : List Char}, tokenizeAux cs cur = [] →
      cur = [] ∧ ∀ c ∈ cs, isWordChar c = false := by
  induction cs with
  | nil =>
    intro cur h
    unfold tokenizeAux flushTok at h
    by_cases hc : cur = []
    · exact ⟨hc, by simp⟩
    · rw [if_neg hc] at h; exact absurd h (by simp)
  | cons c cs ih =>
    intro cur h
    unfold tokenizeAux at h
    by_cases hw : isWordChar c
    · rw [if_pos hw] at h
      exact absurd (ih h).1 (by simp)
    · rw [if_neg hw] at h
      unfold flushTok at h
      by_cases hc : cur = []
      · rw [if_pos hc] at h
        refine ⟨hc, ?_⟩
        intro x hx
        rcases List.mem_cons.mp hx with rfl | hx'
        · exact Bool.eq_false_iff.mpr hw
        · exact (ih h).2 x hx'
      · rw [if_neg hc] at h; exact absurd h (by simp)

lemma tokenizeAux_of_nonword {cs : List Char}
    (h : ∀ c ∈ cs, isWordChar c = false) : tokenizeAux cs [] = [] := by
  induction cs with
  | nil => rfl
  | cons c cs ih =>
    unfold tokenizeAux
    rw [if_neg, flushTok, if_pos rfl]
    · exact ih fun x hx => h x (List.mem_cons_of_mem _ hx)
    · simp [h c (List.mem_cons_self c cs)]

lemma isWordChar_pyToLower {c : Char} (h : isWordChar c = false) :
    isWordChar (pyToLower c) = false := by
  unfold pyToLower
  by_cases hu : c.isUpper
  · exact absurd h (by simp [isWordChar, Char.isAlphanum, Char.isAlpha, hu])
  · rwa [if_neg hu]

lemma keywordsOf_eq_empty {cs : List Char}
    (h : ∀ c ∈ cs, isWordChar c = false) : keywordsOf cs = ∅ := by
  unfold keywordsOf wordTokens
  rw [tokenizeAux_of_nonword h]
  rfl

lemma pyStrip_subset (cs : List Char) : ∀ c ∈ pyStrip cs, c ∈ cs := by
  intro c hc
  unfold pyStrip at hc
  rw [List.mem_reverse] at hc
  have hc2 := List.dropWhile_subset _ hc
  rw [List.mem_reverse] at hc2
  exact List.dropWhile_subset _ hc2

lemma pyLower_nonword {cs : List Char}
    (h : ∀ c ∈ cs, isWordChar c = false) :
    ∀ c ∈ pyLower cs, isWordChar c = false := by
  intro c hc
  unfold pyLower at hc
  rcases List.mem_map.mp hc with ⟨a, ha, rfl⟩
  exact isWordChar_pyToLower (h a ha)

lemma find?_append_first {α} (p : α → Bool) (a : α) (l₁ l₂ : List α)
    (ha : p a = true) (h₁ : ∀ b ∈ l₁, p b = false) :
    (l₁ ++ a :: l₂).find? p = some a := by
  induction l₁ with
  | nil => simp [List.find?_cons, ha]
  | cons b t ih =>
    have hb : p b = false := h₁ b (List.mem_cons_self b t)
    simp only [List.cons_append, List.find?_cons, hb]
    exact ih fun x hx => h₁ x (List.mem_cons_of_mem _ hx)

lemma foldl_stepBest_spec (uq : List Char) (l : List FAQ) :
    ∀ acc : Option FAQ × ℚ,
      (l.foldl (stepBest uq) acc = acc ∧ ∀ g ∈ l, scoreOf uq g ≤ acc.2) ∨
      (∃ l₁ f l₂, l = l₁ ++ f :: l₂ ∧
        l.foldl (stepBest uq) acc = (some f, scoreOf uq f) ∧
        acc.2 < scoreOf uq f ∧
        (∀ g ∈ l₁, scoreOf uq g < scoreOf uq f) ∧
        (∀ g ∈ l₂, scoreOf uq g ≤ scoreOf uq f)) := by
  induction l with
  | nil => intro acc; exact Or.inl ⟨rfl, by simp⟩
  | cons h t ih =>
    intro acc
    rw [List.foldl_cons]
    by_cases hs : acc.2 < scoreOf uq h
    · have hstep : stepBest uq acc h = (some h, scoreOf uq h) := by
        unfold stepBest; rw [if_pos hs]
      rw [hstep]
      rcases ih (some h, scoreOf uq h) with ⟨heq, hall⟩ |
        ⟨l₁, f, l₂, hsplit, heq, hgt, hl₁, hl₂⟩
      · refine Or.inr ⟨[], h, t, rfl, heq, hs, by simp, ?_⟩
        intro g hg; simpa using hall g hg
      · refine Or.inr ⟨h :: l₁, f, l₂, by rw [hsplit]; rfl, heq, ?_, ?_, hl₂⟩
        · exact lt_trans hs (by simpa using hgt)
        · intro g hg
          rcases List.mem_cons.mp hg with rfl | hg'
          · simpa using hgt
          · exact hl₁ g hg'
    · have hstep : stepBest uq acc h = acc := by
        unfold stepBest; rw [if_neg hs]
      rw [hstep]
      have hle : scoreOf uq h ≤ acc.2 := le_of_not_lt hs
      rcases ih acc with ⟨heq, hall⟩ | ⟨l₁, f, l₂, hsplit, heq, hgt, hl₁, hl₂⟩
      · refine Or.inl ⟨heq, ?_⟩
        intro g hg
        rcases List.mem_cons.mp hg with rfl | hg'
        · exact hle
        · exact hall g hg'
      · refine Or.inr ⟨h :: l₁, f, l₂, by rw [hsplit]; rfl, heq, hgt, ?_, hl₂⟩
        intro g hg
        rcases List.mem_cons.mp hg with rfl | hg'
        · exact lt_of_le_of_lt hle hgt
        · exact hl₁ g hg'

lemma bestCandidate_spec (uq : List Char) :
    (bestCandidate uq = (none, 0) ∧ ∀ g ∈ FAQ_DATABASE, scoreOf uq g ≤ 0) ∨
    (∃ l₁ f l₂, FAQ_DATABASE = l₁ ++ f :: l₂ ∧
      bestCandidate uq = (some f, scoreOf uq f) ∧
      0 < scoreOf uq f ∧
      (∀ g ∈ l₁, scoreOf uq g < scoreOf uq f) ∧
      (∀ g ∈ l₂, scoreOf uq g ≤ scoreOf uq f)) :=
  foldl_stepBest_spec uq FAQ_DATABASE (none, 0)

lemma common_keywords_empty_score {uq : List Char} {faq : FAQ}
    (h : common_keywords uq faq = ∅) : scoreOf uq faq = 0 := by
  unfold scoreOf
  rw [h]
  simp

lemma scoreOf_eq_specScore (uq : List Char) (faq : FAQ) :
    scoreOf uq faq = specScore uq faq := by
  unfold scoreOf specScore
  by_cases hc : common_keywords uq faq = ∅
  · rw [if_pos hc, if_neg]
    simp [hc]
  · rw [if_neg hc, if_pos]
    · have hb : phrase_boost uq faq = true ↔
          ∃ p ∈ key_phrases,
            p.data <:+: uq ∧ p.data <:+: pyLower faq.question.data := by
        simp [phrase_boost, List.any_eq_true]
      by_cases hp : phrase_boost uq faq
      · rw [if_pos hp, if_pos (hb.mp hp)]
      · rw [if_neg hp, if_neg]
        · rw [add_zero]
        · exact fun hx => hp (hb.mpr hx)
    · rwa [Finset.card_pos, Finset.nonempty_iff_ne_empty]

set_option maxRecDepth 8000

lemma db_answers_nonempty : ∀ faq ∈ FAQ_DATABASE, faq.answer ≠ "" := by decide

lemma db_self_common_keywords : ∀ faq ∈ FAQ_DATABASE,
    ((faq_keywords faq ∩ keywordsOf (normalizeQ faq.question)) \ stop_words)
      ≠ ∅ := by decide

lemma db_normalized_keywords_nonempty : ∀ faq ∈ FAQ_DATABASE,
    keywordsOf (normalizeQ faq.question) ≠ ∅ := by decide

lemma find_matching_faq_mem {q : String} {faq : FAQ}
    (h : find_matching_faq q = some faq) : faq ∈ FAQ_DATABASE := by
  unfold find_matching_faq at h
  cases hf : FAQ_DATABASE.find?
      (fun g => normalizeQ g.question == normalizeQ q) with
  | some g =>
    rw [hf] at h
    cases h
    exact List.mem_of_find?_eq_some hf
  | none =>
    rw [hf] at h
    dsimp only at h
    rcases bestCandidate_spec (normalizeQ q) with ⟨hbc, _⟩ |
      ⟨l₁, f, l₂, hsplit, hbc, _, _, _⟩
    · rw [hbc] at h
      exact absurd h (by simp [thresholdGate])
    · rw [hbc] at h
      unfold thresholdGate at h
      dsimp only at h
      by_cases ht : (3 : ℚ)/10 ≤ scoreOf (normalizeQ q) f
      · rw [if_pos ht] at h
        cases h
        rw [hsplit]
        exact List.mem_append_right _ (List.mem_cons_self _ _)
      · rw [if_neg ht] at h
        exact absurd h (by simp)

lemma personalize_ne_empty {answer : String} (h : answer ≠ "")
    (customer_name : Option String) :
    personalize answer customer_name ≠ "" := by
  unfold personalize
  cases customer_name with
  | none => exact h
  | some name =>
    dsimp only
    by_cases hn : name = ""
    · rw [if_pos hn]; exact h
    · rw [if_neg hn]
      intro hcontra
      have : ("Hi " ++ name ++ ", " ++ capitalizeFirst answer).data = [] :=
        congrArg String.data hcontra
      simp [String.data_append] at this

/-! ### Claim theorems -/

/-- C1: for every query whose trimmed, lower-cased form equals the trimmed,
lower-cased form of some FAQ question, `find_matching_faq` returns the first
such entry in table order; the result is pinned by the position of the entry
alone, before and independently of keyword scoring and the threshold gate. -/
theorem c1_exact_match_first (q : String) (l₁ l₂ : List FAQ) (faq : FAQ)
    (hsplit : FAQ_DATABASE = l₁ ++ faq :: l₂)
    (hmatch : normalizeQ faq.question = normalizeQ q)
    (hfirst : ∀ g ∈ l₁, normalizeQ g.question ≠ normalizeQ q) :
    find_matching_faq q = some faq := by
  have hf : FAQ_DATABASE.find?
      (fun g => normalizeQ g.question == normalizeQ q) = some faq := by
    rw [hsplit]
    refine find?_append_first _ faq l₁ l₂ ?_ ?_
    · simp [hmatch]
    · intro b hb
      simp [hfirst b hb]
  unfold find_matching_faq
  rw [hf]

/-- Witness for C1 at the concrete query `"  HOW Can I Reset My Password? "`,
matching the first table entry with an empty prefix. -/
theorem c1_exact_match_first_witness :
    find_matching_faq "  HOW Can I Reset My Password? " =
      some ⟨"How can I reset my password?",
        "Go to the login page and click 'Forgot Password'. You'll receive a reset email."⟩ :=
  c1_exact_match_first "  HOW Can I Reset My Password? " []
    FAQ_DATABASE.tail
    ⟨"How can I reset my password?",
      "Go to the login page and click 'Forgot Password'. You'll receive a reset email."⟩
    rfl (by decide) (by intro g hg; exact absurd hg (List.not_mem_nil g))

/-- C2: with no exact match, each candidate is scored exactly as the
specification's formula states (base ratio plus a single flat 0.3 phrase
boost), and the scoring loop of `find_matching_faq` tracks the single
highest-scoring candidate, keeping the earliest entry in table order on
ties: the final best is either the initial `(None, 0)` with every candidate
scoring at most 0, or an entry that strictly beats everything before it and
is at least as good as everything after it. -/
theorem c2_scoring_formula_and_tracking (q : String) (_h : noExactMatch q) :
    (∀ faq : FAQ, scoreOf (normalizeQ q) faq = specScore (normalizeQ q) faq) ∧
    ((bestCandidate (normalizeQ q) = (none, 0) ∧
        ∀ g ∈ FAQ_DATABASE, scoreOf (normalizeQ q) g ≤ 0) ∨
      (∃ l₁ f l₂, FAQ_DATABASE = l₁ ++ f :: l₂ ∧
        bestCandidate (normalizeQ q) = (some f, scoreOf (normalizeQ q) f) ∧
        0 < scoreOf (normalizeQ q) f ∧
        (∀ g ∈ l₁, scoreOf (normalizeQ q) g < scoreOf (normalizeQ q) f) ∧
        (∀ g ∈ l₂, scoreOf (normalizeQ q) g ≤ scoreOf (normalizeQ q) f))) :=
  ⟨fun faq => scoreOf_eq_specScore (normalizeQ q) faq,
   bestCandidate_spec (normalizeQ q)⟩

/-- Witness for C2: the concrete query `"refund policy please"` has no exact
match, and the code's score of the refund-policy entry equals the
specification's formula there. -/
theorem c2_scoring_formula_and_tracking_witness :
    noExactMatch "refund policy please" ∧
    scoreOf (normalizeQ "refund policy please")
        ⟨"What is your refund policy?",
          "We offer full refunds within 7 days of purchase if the product is defective."⟩
      = specScore (normalizeQ "refund policy please")
        ⟨"What is your refund policy?",
          "We offer full refunds within 7 days of purchase if the product is defective."⟩ :=
  ⟨by decide,
   (c2_scoring_formula_and_tracking "refund policy please" (by decide)).1
     ⟨"What is your refund policy?",
       "We offer full refunds within 7 days of purchase if the product is defective."⟩⟩

/-- C3: with no exact match, `find_matching_faq` returns the tracked best
candidate exactly when its final score reaches the 0.3 threshold, and `none`
otherwise. -/
theorem c3_threshold_gate (q : String) (h : noExactMatch q) :
    ((3 : ℚ)/10 ≤ (bestCandidate (normalizeQ q)).2 →
      find_matching_faq q = (bestCandidate (normalizeQ q)).1) ∧
    ((bestCandidate (normalizeQ q)).2 < (3 : ℚ)/10 →
      find_matching_faq q = none) := by
  have hf : FAQ_DATABASE.find?
      (fun g => normalizeQ g.question == normalizeQ q) = none := by
    rw [List.find?_eq_none]
    intro g hg
    simpa using h g hg
  unfold find_matching_faq
  rw [hf]
  dsimp only
  rcases hbc : bestCandidate (normalizeQ q) with ⟨b, s⟩
  cases b with
  | none =>
    refine ⟨fun _ => ?_, fun _ => rfl⟩
    rfl
  | some f =>
    constructor
    · intro ht
      rw [thresholdGate, if_pos (by simpa using ht)]
    · intro ht
      rw [thresholdGate, if_neg (by simpa using not_le_of_lt ht)]

/-- Witness for C3 at the concrete query `"refund policy"`: no exact match,
the best score (13/10) clears the threshold, and the returned entry is the
tracked best candidate. -/
theorem c3_threshold_gate_witness :
    noExactMatch "refund policy" ∧
    find_matching_faq "refund policy" =
      (bestCandidate (normalizeQ "refund policy")).1 :=
  ⟨by decide,
   (c3_threshold_gate "refund policy" (by decide)).1 (by decide!)⟩

/-- C4: `generate_ai_response` is total (the Python `try/except` absorbs
every provider behaviour, which the embedding quantifies over) and never
returns the empty string: the result is a matched, possibly personalized,
FAQ answer, or stripped model output longer than 10 characters, or the fixed
fallback sentence. -/
theorem c4_fallback_guarantee (env : ProviderEnv) (msg : String)
    (name email ctx : Option String) :
    generate_ai_response env msg name email ctx ≠ "" ∧
    ((∃ faq, find_matching_faq msg = some faq ∧
        generate_ai_response env msg name email ctx =
          personalize faq.answer name) ∨
      (∃ s, env.runResult = Except.ok (some s) ∧
        generate_ai_response env msg name email ctx =
          String.mk (pyStrip s.data) ∧
        10 < (pyStrip s.data).length) ∨
      generate_ai_response env msg name email ctx = MOCK_RESPONSE) := by
  have hmock : MOCK_RESPONSE ≠ "" := by decide
  unfold generate_ai_response
  cases hm : find_matching_faq msg with
  | some faq =>
    dsimp only
    refine ⟨personalize_ne_empty (db_answers_nonempty faq
      (find_matching_faq_mem hm)) name, Or.inl ⟨faq, rfl, rfl⟩⟩
  | none =>
    dsimp only
    cases get_gemini_api_key env.gemini_api_key with
    | none => exact ⟨hmock, Or.inr (Or.inr rfl)⟩
    | some k =>
      dsimp only
      by_cases hc : env.clientFails
      · rw [if_pos hc]; exact ⟨hmock, Or.inr (Or.inr rfl)⟩
      · rw [if_neg hc]
        by_cases ha : env.agentFails
        · rw [if_pos ha]; exact ⟨hmock, Or.inr (Or.inr rfl)⟩
        · rw [if_neg ha]
          cases hr : env.runResult with
          | error e => exact ⟨hmock, Or.inr (Or.inr rfl)⟩
          | ok o =>
            cases o with
            | none => exact ⟨hmock, Or.inr (Or.inr rfl)⟩
            | some s =>
              dsimp only
              by_cases hl : 10 < (pyStrip s.data).length
              · rw [if_pos hl]
                refine ⟨?_, Or.inr (Or.inl ⟨s, rfl, rfl, hl⟩)⟩
                intro hcontra
                have hdata : pyStrip s.data = [] :=
                  congrArg String.data hcontra
                rw [hdata] at hl
                exact absurd hl (by simp)
              · rw [if_neg hl]; exact ⟨hmock, Or.inr (Or.inr rfl)⟩

/-- C5 (counterexample to the claim as stated): `customer_name` may be
provided as the empty string, which Python's truthiness test treats like an
absent name: the matched answer is returned verbatim, not prefixed with
`"Hi , "`. -/
theorem c5_personalization_counterexample :
    generate_ai_response ⟨none, false, false, Except.error ()⟩
        "How can I reset my password?" (some "") none none =
      "Go to the login page and click 'Forgot Password'. You'll receive a reset email." ∧
    generate_ai_response ⟨none, false, false, Except.error ()⟩
        "How can I reset my password?" (some "") none none ≠
      "Hi " ++ "" ++ ", " ++ capitalizeFirst
        "Go to the login page and click 'Forgot Password'. You'll receive a reset email." := by
  constructor
  · decide
  · decide

/-- C5 (amended): when `find_matching_faq` matches and a non-empty
`customer_name` is provided, the result is exactly `"Hi {name}, "` followed
by the stored answer with its first character upper-cased if it was a
lowercase letter and otherwise unmodified; when the name is absent — or
empty, which Python's truthiness test treats the same way — the stored
answer is returned verbatim. -/
theorem c5_personalization (env : ProviderEnv) (msg name : String)
    (email ctx : Option String) (faq : FAQ)
    (h : find_matching_faq msg = some faq) (hn : name ≠ "") :
    generate_ai_response env msg (some name) email ctx =
      "Hi " ++ name ++ ", " ++ capitalizeFirst faq.answer ∧
    generate_ai_response env msg none email ctx = faq.answer ∧
    generate_ai_response env msg (some "") email ctx = faq.answer ∧
    (∀ c rest, faq.answer.data = c :: rest → c.isLower = true →
      capitalizeFirst faq.answer = String.mk (pyToUpper c :: rest)) ∧
    (∀ c rest, faq.answer.data = c :: rest → c.isLower = false →
      capitalizeFirst faq.answer = faq.answer) := by
  refine ⟨?_, ?_, ?_, ?_, ?_⟩
  · unfold generate_ai_response
    rw [h]
    dsimp only [personalize]
    rw [if_neg hn]
  · unfold generate_ai_response
    rw [h]
    rfl
  · unfold generate_ai_response
    rw [h]
    dsimp only [personalize]
    rw [if_pos rfl]
  · intro c rest hdata hlow
    unfold capitalizeFirst
    rw [hdata]
    dsimp only
    rw [if_pos hlow]
  · intro c rest hdata hlow
    unfold capitalizeFirst
    rw [hdata]
    dsimp only
    rw [if_neg (by simp [hlow])]

/-- Witness for C5 (amended) at scenario: exact FAQ match with name
`"Sam"`. -/
theorem c5_personalization_witness :
    generate_ai_response ⟨none, false, false, Except.error ()⟩
        "How can I reset my password?" (some "Sam") none none =
      "Hi " ++ "Sam" ++ ", " ++ capitalizeFirst
        "Go to the login page and click 'Forgot Password'. You'll receive a reset email." :=
  (c5_personalization ⟨none, false, false, Except.error ()⟩
    "How can I reset my password?" "Sam" none none
    ⟨"How can I reset my password?",
      "Go to the login page and click 'Forgot Password'. You'll receive a reset email."⟩
    (by decide) (by decide)).1

/-- C6: a query whose stop-word-filtered tokens are disjoint from every FAQ
question's stop-word-filtered token set produces no match.  (Every table
entry shares a meaningful token with its own normal form, so such a query
can also never trigger the exact-match path.) -/
theorem c6_disjoint_keywords_no_match (q : String)
    (h : ∀ faq ∈ FAQ_DATABASE,
      (keywordsOf (normalizeQ q) \ stop_words) ∩
        (faq_keywords faq \ stop_words) = ∅) :
    find_matching_faq q = none := by
  have hcommon : ∀ faq ∈ FAQ_DATABASE,
      common_keywords (normalizeQ q) faq = ∅ := by
    intro faq hfaq
    have hx := h faq hfaq
    unfold common_keywords
    ext x
    simp only [Finset.mem_sdiff, Finset.mem_inter, Finset.not_mem_empty,
      iff_false, not_and]
    intro hmem hstop
    have : x ∈ (keywordsOf (normalizeQ q) \ stop_words) ∩
        (faq_keywords faq \ stop_words) := by
      simp only [Finset.mem_inter, Finset.mem_sdiff]
      exact ⟨⟨hmem.2, hstop⟩, ⟨hmem.1, hstop⟩⟩
    rw [hx] at this
    exact absurd this (Finset.not_mem_empty x)
  have hf : FAQ_DATABASE.find?
      (fun g => normalizeQ g.question == normalizeQ q) = none := by
    rw [List.find?_eq_none]
    intro g hg hbeq
    have heq : normalizeQ g.question = normalizeQ q := by simpa using hbeq
    have hself := db_self_common_keywords g hg
    rw [heq] at hself
    exact hself (hcommon g hg)
  unfold find_matching_faq
  rw [hf]
  dsimp only
  rcases bestCandidate_spec (normalizeQ q) with ⟨hbc, _⟩ |
    ⟨l₁, f, l₂, hsplit, hbc, hpos, _, _⟩
  · rw [hbc]; rfl
  · exfalso
    have hmem : f ∈ FAQ_DATABASE := by
      rw [hsplit]; exact List.mem_append_right _ (List.mem_cons_self _ _)
    have := common_keywords_empty_score (hcommon f hmem)
    rw [this] at hpos
    exact absurd hpos (by simp)

/-- Witness for C6 at the concrete query `"How can I?"`, which consists of
stop words only. -/
theorem c6_disjoint_keywords_no_match_witness :
    (∀ faq ∈ FAQ_DATABASE,
      (keywordsOf (normalizeQ "How can I?") \ stop_words) ∩
        (faq_keywords faq \ stop_words) = ∅) ∧
    find_matching_faq "How can I?" = none :=
  ⟨by decide, c6_disjoint_keywords_no_match "How can I?" (by decide)⟩

/-- C7: when no API credential is configured (`get_gemini_api_key` yields
nothing, covering both an absent and a blank `GEMINI_API_KEY`) and the query
has no FAQ match, `generate_ai_response` returns the fixed fallback sentence
for every provider behaviour — the missing credential is absorbed silently,
and the result does not depend on any model output. -/
theorem c7_no_credential_fallback (env : ProviderEnv) (q : String)
    (name email ctx : Option String)
    (hkey : get_gemini_api_key env.gemini_api_key = none)
    (hmatch : find_matching_faq q = none) :
    generate_ai_response env q name email ctx = MOCK_RESPONSE := by
  unfold generate_ai_response
  rw [hmatch, hkey]

/-- Witness for C7 at the spec's scenario 3: `"What's the weather today?"`
with no credential; even a provider that would answer with a long text is
never consulted. -/
theorem c7_no_credential_fallback_witness :
    get_gemini_api_key none = none ∧
    find_matching_faq "What's the weather today?" = none ∧
    generate_ai_response
        ⟨none, false, false, Except.ok (some "It is sunny and 25 degrees outside today.")⟩
        "What's the weather today?" (some "Sam") none none = MOCK_RESPONSE :=
  ⟨rfl, by decide!,
   c7_no_credential_fallback
     ⟨none, false, false, Except.ok (some "It is sunny and 25 degrees outside today.")⟩
     "What's the weather today?" (some "Sam") none none rfl (by decide!)⟩

/-- C8: on the FAQ-match path the output of `generate_ai_response` is
independent of the credential configuration and of the provider's behaviour:
any two provider environments produce the identical response. -/
theorem c8_faq_path_provider_independent (msg : String) (faq : FAQ)
    (name email ctx : Option String)
    (h : find_matching_faq msg = some faq) (env1 env2 : ProviderEnv) :
    generate_ai_response env1 msg name email ctx =
      generate_ai_response env2 msg name email ctx := by
  unfold generate_ai_response
  rw [h]

/-- Witness for C8: an exact FAQ match answered identically with no
provider at all and with a failing provider. -/
theorem c8_faq_path_provider_independent_witness :
    find_matching_faq "What is your refund policy?" =
      some ⟨"What is your refund policy?",
        "We offer full refunds within 7 days of purchase if the product is defective."⟩ ∧
    generate_ai_response ⟨none, false, false, Except.error ()⟩
        "What is your refund policy?" (some "Sam") none none =
      generate_ai_response ⟨some "key-123", true, false, Except.ok (some "ignored")⟩
        "What is your refund policy?" (some "Sam") none none :=
  ⟨by decide,
   c8_faq_path_provider_independent "What is your refund policy?"
     ⟨"What is your refund policy?",
       "We offer full refunds within 7 days of purchase if the product is defective."⟩
     (some "Sam") none none (by decide)
     ⟨none, false, false, Except.error ()⟩
     ⟨some "key-123", true, false, Except.ok (some "ignored")⟩⟩

lemma pyStrip_nil : pyStrip ([] : List Char) = [] := rfl

lemma dropWhile_replicate_of_neg {p : Char → Bool} {a : Char} (h : p a = false)
    (n : ℕ) : (List.replicate n a).dropWhile p = List.replicate n a := by
  cases n with
  | zero => rfl
  | succ m => rw [List.replicate_succ, List.dropWhile_cons, h]; simp

lemma pyStrip_replicate (a : Char) (h : isPySpace a = false) (n : ℕ) :
    pyStrip (List.replicate n a) = List.replicate n a := by
  unfold pyStrip
  rw [dropWhile_replicate_of_neg h, List.reverse_replicate,
    dropWhile_replicate_of_neg h, List.reverse_replicate]

/-- C9: with a non-empty name and a well-formed non-empty email, message
validation fails (modelling the HTTP 400 `HTTPException`) exactly when the
message is empty or whitespace-only or longer than 10,000 characters; in
`create_support_message` this rejection happens first, so the database is
returned unchanged and the outcome is the same for every provider
environment — no record is persisted and no matching or generation runs. -/
theorem c9_message_validation (name email message : String)
    (env : ProviderEnv) (db : List SupportMessage)
    (hname : pyStrip name.data ≠ [])
    (hemailne : pyStrip email.data ≠ [])
    (hemail : validate_email email = true) :
    ((validate_support_message_data name email message).isSome ↔
      (pyStrip message.data = [] ∨ 10000 < message.data.length)) ∧
    (pyStrip message.data = [] →
      create_support_message env db ⟨name, email, message⟩ =
        (db, Except.error ValidationError.messageEmpty)) ∧
    (pyStrip message.data ≠ [] → 10000 < message.data.length →
      create_support_message env db ⟨name, email, message⟩ =
        (db, Except.error ValidationError.messageTooLong)) ∧
    (pyStrip message.data ≠ [] → message.data.length ≤ 10000 →
      validate_support_message_data name email message = none) := by
  have hreduce : validate_support_message_data name email message =
      (if pyStrip message.data = [] then some ValidationError.messageEmpty
       else if 10000 < message.data.length then
         some ValidationError.messageTooLong
       else none) := by
    unfold validate_support_message_data
    rw [if_neg, if_neg, if_neg]
    · by_cases hm : pyStrip message.data = []
      · rw [if_pos (Or.inr hm), if_pos hm]
      · rw [if_neg, if_neg hm]
        rintro (hd | hs)
        · exact hm (by rw [hd]; rfl)
        · exact hm hs
    · rw [hemail]; simp
    · rintro (hd | hs)
      · exact hemailne (by rw [hd]; rfl)
      · exact hemailne hs
    · rintro (hd | hs)
      · exact hname (by rw [hd]; rfl)
      · exact hname hs
  refine ⟨?_, ?_, ?_, ?_⟩
  · rw [hreduce]
    by_cases hm : pyStrip message.data = []
    · simp [hm]
    · by_cases hl : 10000 < message.data.length
      · simp [hm, hl]
      · simp [hm, hl]
  · intro hm
    unfold create_support_message
    rw [hreduce]
    dsimp only
    rw [if_pos hm]
  · intro hm hl
    unfold create_support_message
    rw [hreduce]
    dsimp only
    rw [if_neg hm, if_pos hl]
  · intro hm hl
    rw [hreduce, if_neg hm, if_neg (not_lt_of_le hl)]


/-- Witness for C9: a 10,000-character message is accepted, a
10,001-character one is rejected with `messageTooLong` before anything is
persisted, and a whitespace-only one is rejected with `messageEmpty`; the
provider in the environment would misbehave if it were ever consulted. -/
theorem c9_message_validation_witness :
    validate_support_message_data "Sam" "sam@example.com"
        (String.mk (List.replicate 10000 'a')) = none ∧
    create_support_message ⟨some "key", false, false, Except.error ()⟩ []
        ⟨"Sam", "sam@example.com", String.mk (List.replicate 10001 'a')⟩ =
      ([], Except.error ValidationError.messageTooLong) ∧
    create_support_message ⟨some "key", false, false, Except.error ()⟩ []
        ⟨"Sam", "sam@example.com", "   "⟩ =
      ([], Except.error ValidationError.messageEmpty) :=
  ⟨(c9_message_validation "Sam" "sam@example.com"
      (String.mk (List.replicate 10000 'a'))
      ⟨some "key", false, false, Except.error ()⟩ []
      (by decide) (by decide) (by decide)).2.2.2
     (by show pyStrip (List.replicate 10000 'a') ≠ []
         rw [pyStrip_replicate 'a' (by decide) 10000]
         intro h
         have h2 := congrArg List.length h
         rw [List.length_replicate, List.length_nil] at h2
         exact absurd h2 (by decide))
     (by show (List.replicate 10000 'a').length ≤ 10000
         rw [List.length_replicate]),
   (c9_message_validation "Sam" "sam@example.com"
      (String.mk (List.replicate 10001 'a'))
      ⟨some "key", false, false, Except.error ()⟩ []
      (by decide) (by decide) (by decide)).2.2.1
     (by show pyStrip (List.replicate 10001 'a') ≠ []
         rw [pyStrip_replicate 'a' (by decide) 10001]
         intro h
         have h2 := congrArg List.length h
         rw [List.length_replicate, List.length_nil] at h2
         exact absurd h2 (by decide))
     (by show 10000 < (List.replicate 10001 'a').length
         rw [List.length_replicate]
         decide),
   (c9_message_validation "Sam" "sam@example.com" "   "
      ⟨some "key", false, false, Except.error ()⟩ []
      (by decide) (by decide) (by decide)).2.1 (by decide)⟩

/-- C10: a query with no word tokens at all (empty, whitespace-only or
punctuation-only) can neither match any table entry exactly — every
normalized FAQ question still has a token — nor give any candidate a
non-empty keyword intersection, so `find_matching_faq` returns `none`. -/
theorem c10_no_word_tokens_no_match (q : String)
    (h : wordTokens q.data = []) :
    find_matching_faq q = none := by
  have hnw : ∀ c ∈ q.data, isWordChar c = false := (tokenizeAux_eq_nil h).2
  have hnw2 : ∀ c ∈ normalizeQ q, isWordChar c = false := by
    intro c hc
    exact pyLower_nonword hnw c (pyStrip_subset _ c hc)
  have htok : keywordsOf (normalizeQ q) = ∅ := keywordsOf_eq_empty hnw2
  have hcommon : ∀ faq : FAQ, common_keywords (normalizeQ q) faq = ∅ := by
    intro faq
    unfold common_keywords
    rw [htok, Finset.inter_empty, Finset.empty_sdiff]
  have hf : FAQ_DATABASE.find?
      (fun g => normalizeQ g.question == normalizeQ q) = none := by
    rw [List.find?_eq_none]
    intro g hg hbeq
    have heq : normalizeQ g.question = normalizeQ q := by simpa using hbeq
    have hne := db_normalized_keywords_nonempty g hg
    rw [heq, htok] at hne
    exact hne rfl
  unfold find_matching_faq
  rw [hf]
  dsimp only
  rcases bestCandidate_spec (normalizeQ q) with ⟨hbc, _⟩ |
    ⟨l₁, f, l₂, _, hbc, hpos, _, _⟩
  · rw [hbc]; rfl
  · exfalso
    have := common_keywords_empty_score (hcommon f)
    rw [this] at hpos
    exact absurd hpos (by simp)

/-- Witness for C10 at the punctuation-only query `"!!! ???"`. -/
theorem c10_no_word_tokens_no_match_witness :
    wordTokens "!!! ???".data = [] ∧ find_matching_faq "!!! ???" = none :=
  ⟨by decide, c10_no_word_tokens_no_match "!!! ???" (by decide)⟩
